import Mathlib

/-!
# Shallow embedding of the ETNA AB691ZT extractor-hood firmware

This file embeds the single Arduino sketch `afzuigkap.ino` of the repository
into Lean 4 and proves properties of its fan/light state machine, its
button/LED multiplexer thresholds, its companion-link signalling and its
timing guard.

Modelling conventions:
* Pin levels `HIGH`/`LOW` become `Bool` (`true` = HIGH, `false` = LOW).
* The C global variables become fields of one record `FwState`; every C
  function that mutates globals or writes pins becomes a Lean function
  `FwState → FwState`.  The last level written to each output pin is kept in
  the record (`ledPinLevels`, `fanPin*Level`, ...), so hardware-visible
  effects are part of the state.
* `analogRead` results are inputs: each tick function takes the sampled
  values as parameters.  AVR `int` arithmetic on these values never leaves
  the range where 16-bit overflow matters (samples are 0..1023, the counter
  tops out at 30), so C `int` is embedded as `Int`.
* `unsigned long` (32-bit on AVR) arithmetic in `loop` is embedded as
  `Nat` reduced modulo `2^32`, with wrapping subtraction made explicit.
-/

namespace Afzuigkap

/-- Pin modes of the sketch: `OUTPUT`, `INPUT`, `INPUT_PULLUP`. -/
inductive PinMode where
  | output
  | input
  | inputPullup
deriving DecidableEq

/-- Arduino analog pin numbers on the ATmega328 board (A0 = 14). -/
def A1 : Nat := 15
def A2 : Nat := 16
def A3 : Nat := 17
def A4 : Nat := 18
def A5 : Nat := 19

/-- `const int blCount = 5;` -/
def blCount : Nat := 5

/-- `const int buttonLedPins[] = {A4, A5, A1, A2, A3};` -/
def buttonLedPins : Fin 5 → Nat := ![A4, A5, A1, A2, A3]

/-- `const int fanPin1 = 5; const int fanPin2 = 4; const int fanPin3 = 2;` -/
def fanPin1 : Nat := 5
def fanPin2 : Nat := 4
def fanPin3 : Nat := 2

/-- `const int lightPin = 3;` -/
def lightPin : Nat := 3

/-- `const int espLightStatePin = 9;` -/
def espLightStatePin : Nat := 9

/-- The global mutable state of the sketch, pin output latches included. -/
structure FwState where
  /-- `int statusLedStates[5]` - levels to drive the 5 status LEDs with
  (active low: `true` = HIGH = LED off). -/
  statusLedStates : Fin 5 → Bool
  /-- `bool lightState` -/
  lightState : Bool
  /-- `int fanState` -/
  fanState : Int
  /-- `int counter` (blink divider in `loop60`) -/
  counter : Int
  /-- `int bCurrVals[5]` -/
  bCurrVals : Fin 5 → Int
  /-- `int bPrevVals[5]` -/
  bPrevVals : Fin 5 → Int
  /-- `int espLightTogglePrev` -/
  espLightTogglePrev : Int
  /-- `int espLightToggleCurr` -/
  espLightToggleCurr : Int
  /-- last level written to each of the 5 multiplexed button/LED pins -/
  ledPinLevels : Fin 5 → Bool
  /-- last level written to `lightPin` -/
  lightPinLevel : Bool
  /-- last level written to `fanPin1` -/
  fanPin1Level : Bool
  /-- last level written to `fanPin2` -/
  fanPin2Level : Bool
  /-- last level written to `fanPin3` -/
  fanPin3Level : Bool
  /-- current `pinMode` of `espLightStatePin` (`output` = driven,
  `input` = released/floating) -/
  espLightStateMode : PinMode
  /-- last level written to `espLightStatePin` while in output mode -/
  espLightStateLevel : Bool

/-- The hardware-visible drive of the companion-link output line:
`some lvl` when the line is actively driven at level `lvl`, `none` when the
pin is in input mode, i.e. released/floating. -/
def companionDrive (st : FwState) : Option Bool :=
  match st.espLightStateMode with
  | PinMode.output => some st.espLightStateLevel
  | _ => none

/-- `int fanPinStates[5][7]`, rows indexed by fan state, columns 0-2 the fan
relay pins and columns 3-6 the status-LED levels.  A C lookup outside rows
0..4 is undefined behaviour; it is modelled by an all-`LOW` default row,
shown unreachable by the fan-state invariant. -/
def fanPinStates : Int → Fin 7 → Bool
  | 0 => ![false, false, false, true, true, true, true]
  | 1 => ![true, false, false, false, false, true, true]
  | 2 => ![false, true, false, false, true, false, true]
  | 3 => ![true, true, false, false, true, true, false]
  | 4 => ![true, false, true, false, true, true, false]
  | _ => ![false, false, false, false, false, false, false]

/-- Range-checked form of the `fanPinStates[fanState]` row lookup: `none`
exactly when the C array access would be out of bounds. -/
def fanPinStatesChecked (s : Int) : Option (Fin 7 → Bool) :=
  if 0 ≤ s ∧ s < 5 then some (fanPinStates s) else none

/-- `void updateLeds(int index)`: writes `statusLedStates[index]` to its pin,
or all five when `index == -1`.  A call with any other out-of-range index
never occurs in the sketch (C would index out of bounds); it is modelled as
a no-op. -/
def updateLedsIdx (index : Int) (st : FwState) : FwState :=
  let levels : Fin 5 → Bool :=
    if index = -1 then fun i => st.statusLedStates i
    else if h : 0 ≤ index ∧ index < 5 then
      Function.update st.ledPinLevels ⟨index.toNat, by omega⟩ (st.statusLedStates ⟨index.toNat, by omega⟩)
    else st.ledPinLevels
  { st with ledPinLevels := levels }

/-- The `digitalWrite (pin, level)` calls `updateLeds(index)` performs, in
order. -/
def ledWrites (index : Int) (st : FwState) : List (Nat × Bool) :=
  if index = -1 then
    (List.finRange 5).map (fun i => (buttonLedPins i, st.statusLedStates i))
  else if h : 0 ≤ index ∧ index < 5 then
    let i : Fin 5 := ⟨index.toNat, by omega⟩
    [(buttonLedPins i, st.statusLedStates i)]
  else []

/-- `void updateLeds()` - the all-channels form. -/
def updateLeds (st : FwState) : FwState := updateLedsIdx (-1) st

/-- `void updateLight()`: drives `lightPin` with `lightState`, re-emits the
companion output line (floating when the light is on, actively LOW when it
is off), sets `statusLedStates[4] = !lightState` and rewrites LED 4. -/
def updateLight (st : FwState) : FwState :=
  let st1 := { st with
    lightPinLevel := st.lightState,
    espLightStateMode := if st.lightState then PinMode.input else PinMode.output,
    espLightStateLevel := if st.lightState then st.espLightStateLevel else false }
  let st2 := { st1 with statusLedStates := Function.update st1.statusLedStates 4 (!st1.lightState) }
  updateLedsIdx 4 st2

/-- `void toggleLight()` -/
def toggleLight (st : FwState) : FwState :=
  updateLight { st with lightState := !st.lightState }

/-- `void updateFan()`: writes the relay pins from columns 0-2 of the
current fan state's row, copies columns 3-6 into `statusLedStates[0..3]`,
then rewrites all LEDs. -/
def updateFan (st : FwState) : FwState :=
  let row := fanPinStates st.fanState
  let st1 := { st with fanPin1Level := row 0, fanPin2Level := row 1, fanPin3Level := row 2 }
  let leds := Function.update (Function.update (Function.update (Function.update
    st1.statusLedStates 0 (row 3)) 1 (row 4)) 2 (row 5)) 3 (row 6)
  updateLeds { st1 with statusLedStates := leds }

/-- `void buttonPressed(int index)` -/
def buttonPressed (index : Int) (st : FwState) : FwState :=
  match index with
  | 0 => updateFan { st with fanState := 0 }
  | 1 => updateFan { st with fanState := 1 }
  | 2 => updateFan { st with fanState := 2 }
  | 3 => updateFan { st with fanState := if st.fanState = 3 then 4 else 3 }
  | 4 => toggleLight st
  | _ => st

/-- `int readButtonState(int index)`: shifts the channel's current sample
into the previous slot, stores the new analog sample (a parameter here), and
restores the LED drive on the shared pin.  The transient `INPUT_PULLUP`
phase and settle delays have no lasting state effect and are not modelled. -/
def readButtonState (i : Fin 5) (sample : Int) (st : FwState) : FwState :=
  let st1 := { st with bPrevVals := Function.update st.bPrevVals i (st.bCurrVals i) }
  let st2 := { st1 with bCurrVals := Function.update st1.bCurrVals i sample }
  { st2 with ledPinLevels := Function.update st2.ledPinLevels i (st2.statusLedStates i) }

/-- One iteration of the channel loop in `loop60`: read the channel, then
`if (bPrevVals[i] - bCurrVals[i] > 300) buttonPressed(i);`. -/
def buttonScan1 (i : Fin 5) (sample : Int) (st : FwState) : FwState :=
  let st1 := readButtonState i sample st
  if st1.bPrevVals i - st1.bCurrVals i > 300 then buttonPressed i.val st1 else st1

/-- The companion-request check in `loop60`: shift the previous sample,
store the new one, and `if (espLightToggleCurr - espLightTogglePrev > 600)
toggleLight();`. -/
def espScan (espSample : Int) (st : FwState) : FwState :=
  let st1 := { st with espLightTogglePrev := st.espLightToggleCurr }
  let st2 := { st1 with espLightToggleCurr := espSample }
  if st2.espLightToggleCurr - st2.espLightTogglePrev > 600 then toggleLight st2 else st2

/-- The blink divider at the end of `loop60`: `counter++`, and every time it
reaches 30 reset it and, when in fan state 4, invert `statusLedStates[3]`
and rewrite LED 3. -/
def blinkStep (st : FwState) : FwState :=
  let st1 := { st with counter := st.counter + 1 }
  if st1.counter = 30 then
    let st2 := { st1 with counter := 0 }
    if st2.fanState = 4 then
      let leds := Function.update st2.statusLedStates 3 (!(st2.statusLedStates 3))
      updateLedsIdx 3 { st2 with statusLedStates := leds }
    else st2
  else st1

/-- `void loop60()`: scan the five button channels, poll the companion
request line, then run the blink divider.  `samples i` is the value
`analogRead` returns for channel `i` this tick and `espSample` the value for
the companion request pin. -/
def loop60 (samples : Fin 5 → Int) (espSample : Int) (st : FwState) : FwState :=
  let st0 := buttonScan1 0 (samples 0) st
  let st1 := buttonScan1 1 (samples 1) st0
  let st2 := buttonScan1 2 (samples 2) st1
  let st3 := buttonScan1 3 (samples 3) st2
  let st4 := buttonScan1 4 (samples 4) st3
  let st5 := espScan espSample st4
  blinkStep st5

/-- The state of the C globals at power-on: statics are zero-initialised
except `statusLedStates`, which is declared all `HIGH`; pin latches start
LOW and `espLightStatePin` starts in output mode as `setup()` leaves it
before calling `updateLight()`. -/
def powerOnState : FwState where
  statusLedStates := fun _ => true
  lightState := false
  fanState := 0
  counter := 0
  bCurrVals := fun _ => 0
  bPrevVals := fun _ => 0
  espLightTogglePrev := 0
  espLightToggleCurr := 0
  ledPinLevels := fun _ => false
  lightPinLevel := false
  fanPin1Level := false
  fanPin2Level := false
  fanPin3Level := false
  espLightStateMode := PinMode.output
  espLightStateLevel := false

/-- `void setup()`: the state-relevant sequence is `updateLeds()`, driving
`espLightStatePin` LOW in output mode, `updateLight()`, `updateFan()`. -/
def setup : FwState :=
  updateFan (updateLight (updateLeds powerOnState))

/-- Iterated ticks: `run samples esps st n` is the state after `n` calls of
`loop60`, tick `k` receiving button samples `samples k` and companion sample
`esps k`. -/
def run (samples : Nat → Fin 5 → Int) (esps : Nat → Int) (st : FwState) : Nat → FwState
  | 0 => st
  | n + 1 => loop60 (samples n) (esps n) (run samples esps st n)

/-- `unsigned long` modulus. -/
def UL_MOD : Nat := 4294967296

/-- 32-bit wrapping subtraction `a - b` on values already reduced mod
`2^32`, as C unsigned arithmetic computes it. -/
def wsub (a b : Nat) : Nat := (a + UL_MOD - b % UL_MOD) % UL_MOD

/-- `millis()` as the 32-bit truncation of an unbounded monotonic
millisecond count. -/
def millisWrap (t : Nat) : Nat := t % UL_MOD

/-- `void loop()`: read `millis()`, and iff `millisCurr - millisPrev > 16`
(unsigned wrapping subtraction) update `millisPrev` and run `loop60`.
Returns the new `millisPrev` and the new firmware state. -/
def loopStep (tNow : Nat) (millisPrev : Nat) (samples : Fin 5 → Int)
    (espSample : Int) (st : FwState) : Nat × FwState :=
  let millisCurr := millisWrap tNow
  if wsub millisCurr millisPrev > 16 then (millisCurr, loop60 samples espSample st)
  else (millisPrev, st)

/-! ## Projection lemmas

Each operation is a record update, so projections of untouched fields are
definitional. -/

variable (index : Int) (st : FwState) (i : Fin 5) (s : Int)

@[simp] lemma updateLedsIdx_statusLedStates :
    (updateLedsIdx index st).statusLedStates = st.statusLedStates := rfl

@[simp] lemma updateLedsIdx_lightState :
    (updateLedsIdx index st).lightState = st.lightState := rfl

@[simp] lemma updateLedsIdx_fanState :
    (updateLedsIdx index st).fanState = st.fanState := rfl

@[simp] lemma updateLedsIdx_counter :
    (updateLedsIdx index st).counter = st.counter := rfl

@[simp] lemma updateLedsIdx_bCurrVals :
    (updateLedsIdx index st).bCurrVals = st.bCurrVals := rfl

@[simp] lemma updateLedsIdx_bPrevVals :
    (updateLedsIdx index st).bPrevVals = st.bPrevVals := rfl

@[simp] lemma updateLedsIdx_espPrev :
    (updateLedsIdx index st).espLightTogglePrev = st.espLightTogglePrev := rfl

@[simp] lemma updateLedsIdx_espCurr :
    (updateLedsIdx index st).espLightToggleCurr = st.espLightToggleCurr := rfl

@[simp] lemma updateLedsIdx_espMode :
    (updateLedsIdx index st).espLightStateMode = st.espLightStateMode := rfl

@[simp] lemma updateLedsIdx_espLevel :
    (updateLedsIdx index st).espLightStateLevel = st.espLightStateLevel := rfl

@[simp] lemma updateLedsIdx_lightPinLevel :
    (updateLedsIdx index st).lightPinLevel = st.lightPinLevel := rfl

@[simp] lemma updateLedsIdx_fanPin1 :
    (updateLedsIdx index st).fanPin1Level = st.fanPin1Level := rfl

@[simp] lemma updateLedsIdx_fanPin2 :
    (updateLedsIdx index st).fanPin2Level = st.fanPin2Level := rfl

@[simp] lemma updateLedsIdx_fanPin3 :
    (updateLedsIdx index st).fanPin3Level = st.fanPin3Level := rfl

lemma updateLedsIdx_all_led :
    (updateLedsIdx (-1) st).ledPinLevels = fun j => st.statusLedStates j := rfl

lemma updateLedsIdx_three_led :
    (updateLedsIdx 3 st).ledPinLevels =
      Function.update st.ledPinLevels 3 (st.statusLedStates 3) := rfl

lemma updateLedsIdx_four_led :
    (updateLedsIdx 4 st).ledPinLevels =
      Function.update st.ledPinLevels 4 (st.statusLedStates 4) := rfl

@[simp] lemma updateLight_lightState : (updateLight st).lightState = st.lightState := rfl

@[simp] lemma updateLight_fanState : (updateLight st).fanState = st.fanState := rfl

@[simp] lemma updateLight_counter : (updateLight st).counter = st.counter := rfl

@[simp] lemma updateLight_statusLedStates :
    (updateLight st).statusLedStates =
      Function.update st.statusLedStates 4 (!st.lightState) := rfl

@[simp] lemma updateLight_bCurrVals : (updateLight st).bCurrVals = st.bCurrVals := rfl

@[simp] lemma updateLight_bPrevVals : (updateLight st).bPrevVals = st.bPrevVals := rfl

@[simp] lemma updateLight_espPrev :
    (updateLight st).espLightTogglePrev = st.espLightTogglePrev := rfl

@[simp] lemma updateLight_espCurr :
    (updateLight st).espLightToggleCurr = st.espLightToggleCurr := rfl

@[simp] lemma updateLight_espMode :
    (updateLight st).espLightStateMode =
      (if st.lightState then PinMode.input else PinMode.output) := rfl

@[simp] lemma updateLight_espLevel :
    (updateLight st).espLightStateLevel =
      (if st.lightState then st.espLightStateLevel else false) := rfl

@[simp] lemma updateLight_lightPinLevel :
    (updateLight st).lightPinLevel = st.lightState := rfl

@[simp] lemma updateLight_fanPin1 : (updateLight st).fanPin1Level = st.fanPin1Level := rfl

@[simp] lemma updateLight_fanPin2 : (updateLight st).fanPin2Level = st.fanPin2Level := rfl

@[simp] lemma updateLight_fanPin3 : (updateLight st).fanPin3Level = st.fanPin3Level := rfl

lemma updateLight_ledPinLevels :
    (updateLight st).ledPinLevels = Function.update st.ledPinLevels 4 (!st.lightState) := by
  show Function.update st.ledPinLevels 4
      (Function.update st.statusLedStates 4 (!st.lightState) 4) = _
  rw [Function.update_same]

@[simp] lemma updateFan_fanState : (updateFan st).fanState = st.fanState := rfl

@[simp] lemma updateFan_lightState : (updateFan st).lightState = st.lightState := rfl

@[simp] lemma updateFan_counter : (updateFan st).counter = st.counter := rfl

@[simp] lemma updateFan_fanPin1 :
    (updateFan st).fanPin1Level = fanPinStates st.fanState 0 := rfl

@[simp] lemma updateFan_fanPin2 :
    (updateFan st).fanPin2Level = fanPinStates st.fanState 1 := rfl

@[simp] lemma updateFan_fanPin3 :
    (updateFan st).fanPin3Level = fanPinStates st.fanState 2 := rfl

@[simp] lemma updateFan_statusLedStates :
    (updateFan st).statusLedStates =
      Function.update (Function.update (Function.update (Function.update
        st.statusLedStates 0 (fanPinStates st.fanState 3)) 1 (fanPinStates st.fanState 4))
        2 (fanPinStates st.fanState 5)) 3 (fanPinStates st.fanState 6) := rfl

lemma updateFan_ledPinLevels :
    (updateFan st).ledPinLevels = fun j => (updateFan st).statusLedStates j := rfl

@[simp] lemma readButtonState_statusLedStates :
    (readButtonState i s st).statusLedStates = st.statusLedStates := rfl

@[simp] lemma readButtonState_lightState :
    (readButtonState i s st).lightState = st.lightState := rfl

@[simp] lemma readButtonState_fanState :
    (readButtonState i s st).fanState = st.fanState := rfl

@[simp] lemma readButtonState_counter :
    (readButtonState i s st).counter = st.counter := rfl

@[simp] lemma readButtonState_espPrev :
    (readButtonState i s st).espLightTogglePrev = st.espLightTogglePrev := rfl

@[simp] lemma readButtonState_espCurr :
    (readButtonState i s st).espLightToggleCurr = st.espLightToggleCurr := rfl

@[simp] lemma readButtonState_bPrevVals :
    (readButtonState i s st).bPrevVals =
      Function.update st.bPrevVals i (st.bCurrVals i) := rfl

@[simp] lemma readButtonState_bCurrVals :
    (readButtonState i s st).bCurrVals = Function.update st.bCurrVals i s := rfl

/-! ## Claim theorems, part 1 -/

/-- Modelled from the spec transition table: the three relay outputs per fan
state, `true` = energised (1 in the table). -/
def specRelayRow : Int → Bool × Bool × Bool
  | 0 => (false, false, false)
  | 1 => (true, false, false)
  | 2 => (false, true, false)
  | 3 => (true, true, false)
  | 4 => (true, false, true)
  | _ => (false, false, false)

/-- C2: for every fan state in 0..4, after `updateFan` runs the three relay
output lines carry exactly the values of the spec's transition-table row for
that state: Off  (0,0,0), Low  (1,0,0), Medium  (0,1,0), High  (1,1,0),
HighBlink  (1,0,1). -/
theorem updateFan_relays_match_table :
    ∀ st : FwState, 0 ≤ st.fanState → st.fanState < 5 →
      ((updateFan st).fanPin1Level, (updateFan st).fanPin2Level, (updateFan st).fanPin3Level) =
        specRelayRow st.fanState := by
  intro st h0 h5
  have h : st.fanState = 0 ∨ st.fanState = 1 ∨ st.fanState = 2 ∨ st.fanState = 3 ∨
      st.fanState = 4 := by omega
  rcases h with h | h | h | h | h <;> simp [h, specRelayRow, fanPinStates]

/-- Witness for C2 at the power-on state (fan state 0). -/
theorem updateFan_relays_match_table_witness :
    0 ≤ powerOnState.fanState ∧ powerOnState.fanState < 5 ∧
      ((updateFan powerOnState).fanPin1Level, (updateFan powerOnState).fanPin2Level,
        (updateFan powerOnState).fanPin3Level) = specRelayRow powerOnState.fanState :=
  ⟨by decide, by decide,
    updateFan_relays_match_table powerOnState (by decide) (by decide)⟩

/-- C3: buttons 0, 1, 2 set the fan state to their own index; button 3 goes
to HighBlink (4) exactly from High (3) and to High from everywhere else;
button 4 toggles the light and leaves the fan state alone; every index
outside 0..4 is a no-op. -/
theorem buttonPressed_transition_map :
    ∀ st : FwState,
      (buttonPressed 0 st).fanState = 0 ∧
      (buttonPressed 1 st).fanState = 1 ∧
      (buttonPressed 2 st).fanState = 2 ∧
      (buttonPressed 3 st).fanState = (if st.fanState = 3 then 4 else 3) ∧
      ((buttonPressed 3 st).fanState = 3 ∨ (buttonPressed 3 st).fanState = 4) ∧
      (buttonPressed 4 st).fanState = st.fanState ∧
      (buttonPressed 4 st).lightState = !st.lightState ∧
      (buttonPressed 0 st).lightState = st.lightState ∧
      (buttonPressed 1 st).lightState = st.lightState ∧
      (buttonPressed 2 st).lightState = st.lightState ∧
      (buttonPressed 3 st).lightState = st.lightState ∧
      (∀ j : Int, j < 0 ∨ 4 < j → buttonPressed j st = st) := by
  intro st
  refine ⟨rfl, rfl, rfl, rfl, ?_, rfl, rfl, rfl, rfl, rfl, ?_, ?_⟩
  · by_cases h : st.fanState = 3 <;> simp [buttonPressed, h]
  · by_cases h : st.fanState = 3 <;> simp [buttonPressed, h]
  · intro j hj
    unfold buttonPressed
    split <;> first | rfl | omega

/-- Witness for C3: index 5 is a no-op on the power-on state. -/
theorem buttonPressed_transition_map_witness :
    ((5 : Int) < 0 ∨ (4 : Int) < 5) ∧ buttonPressed 5 powerOnState = powerOnState :=
  ⟨Or.inr (by decide),
    (buttonPressed_transition_map powerOnState).2.2.2.2.2.2.2.2.2.2.2 5 (Or.inr (by decide))⟩

/-- C4: one light toggle flips `lightState`, drives status LED 4 with the
negation of the new light state, and leaves the companion output line
actively LOW exactly when the light is off and floating exactly when it is
on; the LED pin latch agrees with the LED state. -/
theorem toggleLight_consistency :
    ∀ st : FwState,
      (toggleLight st).lightState = !st.lightState ∧
      (toggleLight st).statusLedStates 4 = !((toggleLight st).lightState) ∧
      companionDrive (toggleLight st) =
        (if (toggleLight st).lightState then none else some false) ∧
      (toggleLight st).ledPinLevels 4 = (toggleLight st).statusLedStates 4 ∧
      (toggleLight st).lightPinLevel = (toggleLight st).lightState := by
  intro st
  refine ⟨rfl, ?_, ?_, ?_, rfl⟩
  · simp [toggleLight]
  · cases h : st.lightState <;>
      simp [companionDrive, toggleLight, h]
  · simp [toggleLight, updateLight_ledPinLevels]

/-! ## Claim theorems, part 2: thresholds, timing, idempotence -/

lemma buttonScan1_eq (i : Fin 5) (s : Int) (st : FwState) :
    buttonScan1 i s st =
      (if st.bCurrVals i - s > 300 then buttonPressed i.val (readButtonState i s st)
       else readButtonState i s st) := by
  simp only [buttonScan1, readButtonState_bPrevVals, readButtonState_bCurrVals,
    Function.update_same]

/-- C6: a button channel registers a press this tick iff the sample dropped
by strictly more than 300 since the previous tick: the handler runs exactly
when `previous - current > 300`, a drop of exactly 300 does nothing, a drop
of 301 fires the handler. -/
theorem press_threshold_strict :
    ∀ (st : FwState) (i : Fin 5) (s : Int),
      buttonScan1 i s st =
        (if st.bCurrVals i - s > 300 then buttonPressed i.val (readButtonState i s st)
         else readButtonState i s st) ∧
      (readButtonState i s st).bPrevVals i - (readButtonState i s st).bCurrVals i
        = st.bCurrVals i - s ∧
      buttonScan1 i (st.bCurrVals i - 300) st = readButtonState i (st.bCurrVals i - 300) st ∧
      buttonScan1 i (st.bCurrVals i - 301) st =
        buttonPressed i.val (readButtonState i (st.bCurrVals i - 301) st) := by
  intro st i s
  refine ⟨buttonScan1_eq i s st, by simp, ?_, ?_⟩
  · rw [buttonScan1_eq, if_neg]
    omega
  · rw [buttonScan1_eq, if_pos]
    omega

lemma espScan_lightState (s : Int) (st : FwState) :
    (espScan s st).lightState =
      (if s - st.espLightToggleCurr > 600 then !st.lightState else st.lightState) := by
  simp only [espScan]
  split <;> simp [toggleLight]

lemma espScan_espCurr (s : Int) (st : FwState) : (espScan s st).espLightToggleCurr = s := by
  simp only [espScan]
  split <;> simp [toggleLight]

lemma espScan_espPrev (s : Int) (st : FwState) :
    (espScan s st).espLightTogglePrev = st.espLightToggleCurr := by
  simp only [espScan]
  split <;> simp [toggleLight]

/-- All consecutive deltas of the sample list stay at or below 600, starting
from previous sample `p`. -/
def smallDeltas : Int → List Int → Bool
  | _, [] => true
  | p, e :: rest => (decide (e - p ≤ 600)) && smallDeltas e rest

lemma espScan_foldl_smallDeltas :
    ∀ (l : List Int) (st : FwState), smallDeltas st.espLightToggleCurr l = true →
      (l.foldl (fun acc x => espScan x acc) st).lightState = st.lightState := by
  intro l
  induction l with
  | nil => intro st _; rfl
  | cons e rest ih =>
    intro st h
    simp only [smallDeltas, Bool.and_eq_true, decide_eq_true_eq] at h
    rw [List.foldl_cons, ih (espScan e st) (by rw [espScan_espCurr]; exact h.2),
      espScan_lightState, if_neg]
    omega

/-- C5: the companion-request line triggers the light toggle iff the sample
rose by strictly more than 600 since the previous tick: a delta of 601
toggles exactly once, and any sample sequence whose consecutive deltas all
stay at or below 600 never toggles. -/
theorem companion_toggle_threshold :
    ∀ (st : FwState) (s : Int),
      (espScan s st).lightState =
        (if s - st.espLightToggleCurr > 600 then !st.lightState else st.lightState) ∧
      (espScan s st).espLightTogglePrev = st.espLightToggleCurr ∧
      (espScan s st).espLightToggleCurr = s ∧
      (espScan (st.espLightToggleCurr + 601) st).lightState = !st.lightState ∧
      (espScan (st.espLightToggleCurr + 600) st).lightState = st.lightState ∧
      (∀ l : List Int, smallDeltas st.espLightToggleCurr l = true →
        (l.foldl (fun acc x => espScan x acc) st).lightState = st.lightState) := by
  intro st s
  refine ⟨espScan_lightState s st, espScan_espPrev s st, espScan_espCurr s st, ?_, ?_,
    fun l h => espScan_foldl_smallDeltas l st h⟩
  · rw [espScan_lightState, if_pos]
    omega
  · rw [espScan_lightState, if_neg]
    omega

/-- Witness for C5: on the power-on state, a sustained high reading with
consecutive deltas of 600, 600 and 0 never toggles the light. -/
theorem companion_toggle_threshold_witness :
    smallDeltas powerOnState.espLightToggleCurr [600, 1200, 1200] = true ∧
      (([600, 1200, 1200] : List Int).foldl (fun acc x => espScan x acc)
        powerOnState).lightState = powerOnState.lightState :=
  ⟨by decide,
    (companion_toggle_threshold powerOnState 0).2.2.2.2.2 [600, 1200, 1200] (by decide)⟩

/-- C8: the tick guard fires iff the 32-bit wrapping subtraction
`millis() - millisPrev` exceeds 16, the wrapping subtraction equals the true
elapsed time whenever that time is under `2^32` ms (so wraparound never
yields a negative or stuck interval), and from any instant some later
instant fires the guard. -/
theorem loop_timing_guard :
    ∀ (tPrev tNow : Nat) (samples : Fin 5 → Int) (esp : Int) (st : FwState),
      tPrev ≤ tNow → tNow - tPrev < UL_MOD →
      (wsub (millisWrap tNow) (millisWrap tPrev) = tNow - tPrev ∧
       loopStep tNow (millisWrap tPrev) samples esp st =
         (if 16 < tNow - tPrev then (millisWrap tNow, loop60 samples esp st)
          else (millisWrap tPrev, st))) ∧
      (∃ tNext : Nat, tNow ≤ tNext ∧ tNext - tNow < UL_MOD ∧
        16 < wsub (millisWrap tNext) (millisWrap tNow)) := by
  intro tPrev tNow samples esp st hle hlt
  simp only [UL_MOD] at hlt
  have key : wsub (millisWrap tNow) (millisWrap tPrev) = tNow - tPrev := by
    simp only [wsub, millisWrap, UL_MOD]
    omega
  refine ⟨⟨key, ?_⟩, ?_⟩
  · simp only [loopStep]
    rw [key]
  · refine ⟨tNow + 17, by omega, by simp only [UL_MOD]; omega, ?_⟩
    have key2 : wsub (millisWrap (tNow + 17)) (millisWrap tNow) = 17 := by
      simp only [wsub, millisWrap, UL_MOD]
      omega
    omega

/-- Witness for C8 at `tPrev = 0`, `tNow = 20`. -/
theorem loop_timing_guard_witness :
    wsub (millisWrap 20) (millisWrap 0) = 20 - 0 :=
  ((loop_timing_guard 0 20 (fun _ => 0) 0 powerOnState (by omega)
    (by simp only [UL_MOD]; omega)).1).1

lemma updateLedsIdx_idem :
    updateLedsIdx index (updateLedsIdx index st) = updateLedsIdx index st := by
  by_cases h1 : index = -1
  · subst h1; rfl
  · by_cases h2 : 0 ≤ index ∧ index < 5
    · simp only [updateLedsIdx, if_neg h1, dif_pos h2]
      exact congrArg (fun L => { st with ledPinLevels := L }) (Function.update_idem _ _ _)
    · simp only [updateLedsIdx, if_neg h1, dif_neg h2]

lemma updateLedsIdx_iterate :
    ∀ n : Nat, (updateLedsIdx index)^[n] (updateLedsIdx index st) = updateLedsIdx index st := by
  intro n
  induction n with
  | zero => rfl
  | succ n ih => rw [Function.iterate_succ_apply', ih, updateLedsIdx_idem]

/-- C9: rewriting the indicators with unchanged state is idempotent, for the
all-channels form and the index-addressed form alike: the emitted write
values are identical on every invocation, arbitrarily many repeats change
nothing further, and no program variable (samples, states, counter) is
mutated. -/
theorem updateLeds_idempotent :
    ∀ (st : FwState) (index : Int),
      updateLeds (updateLeds st) = updateLeds st ∧
      updateLedsIdx index (updateLedsIdx index st) = updateLedsIdx index st ∧
      ledWrites index (updateLedsIdx index st) = ledWrites index st ∧
      (updateLedsIdx index st).statusLedStates = st.statusLedStates ∧
      (updateLedsIdx index st).lightState = st.lightState ∧
      (updateLedsIdx index st).fanState = st.fanState ∧
      (updateLedsIdx index st).counter = st.counter ∧
      (updateLedsIdx index st).bCurrVals = st.bCurrVals ∧
      (updateLedsIdx index st).bPrevVals = st.bPrevVals ∧
      (updateLedsIdx index st).espLightTogglePrev = st.espLightTogglePrev ∧
      (updateLedsIdx index st).espLightToggleCurr = st.espLightToggleCurr ∧
      (∀ n : Nat, (updateLedsIdx index)^[n] (updateLedsIdx index st) = updateLedsIdx index st) := by
  intro st index
  exact ⟨updateLedsIdx_idem (-1) st, updateLedsIdx_idem index st, rfl, rfl, rfl, rfl, rfl,
    rfl, rfl, rfl, rfl, updateLedsIdx_iterate index st⟩

/-! ## Claim theorems, part 3: indicator table and fan-state invariant -/

/-- Whether indicator `i` is lit: the status LEDs are active low, a LOW
(`false`) drive lights the LED. -/
def indicatorOn (st : FwState) (i : Fin 5) : Bool := !(st.statusLedStates i)

/-- Lit-ness of the four fan indicators (ind0..ind3). -/
def indicatorQuad (st : FwState) : Bool × Bool × Bool × Bool :=
  (indicatorOn st 0, indicatorOn st 1, indicatorOn st 2, indicatorOn st 3)

/-- Modelled from the spec's transition-table indicator columns as claim C1
reads them (`true` = lit): Off lights only ind0, Low only ind1, Medium only
ind2, High and HighBlink light ind2 and ind3. -/
def specIndicatorRow : Int → Bool × Bool × Bool × Bool
  | 0 => (true, false, false, false)
  | 1 => (false, true, false, false)
  | 2 => (false, false, true, false)
  | 3 => (false, false, true, true)
  | 4 => (false, false, true, true)
  | _ => (false, false, false, false)

/-- The indicator pattern the code's `fanPinStates` LED columns actually
encode (`true` = lit): state Off lights no indicator, and every running
state lights ind0 (the "OFF" button LED) together with its own indicator
(ind3 for both High and HighBlink, the latter as the blink base). -/
def codeIndicatorRow : Int → Bool × Bool × Bool × Bool
  | 0 => (false, false, false, false)
  | 1 => (true, true, false, false)
  | 2 => (true, false, true, false)
  | 3 => (true, false, false, true)
  | 4 => (true, false, false, true)
  | _ => (false, false, false, false)

/-- C1 counterexample: at the power-on state (fan state 0 = Off), running
`updateFan` leaves all four fan indicators dark, not "ind0 on" as the spec's
table row for Off states - and in fact the post-`updateFan` indicator
pattern differs from the spec's table row in all five states. -/
theorem updateFan_indicators_spec_counterexample :
    powerOnState.fanState = 0 ∧
    indicatorQuad (updateFan powerOnState) ≠ specIndicatorRow 0 ∧
    indicatorQuad (updateFan powerOnState) = (false, false, false, false) ∧
    indicatorQuad (updateFan { powerOnState with fanState := 1 }) ≠ specIndicatorRow 1 ∧
    indicatorQuad (updateFan { powerOnState with fanState := 2 }) ≠ specIndicatorRow 2 ∧
    indicatorQuad (updateFan { powerOnState with fanState := 3 }) ≠ specIndicatorRow 3 ∧
    indicatorQuad (updateFan { powerOnState with fanState := 4 }) ≠ specIndicatorRow 4 := by
  refine ⟨rfl, ?_, rfl, ?_, ?_, ?_, ?_⟩ <;> decide

/-- C1 (amended): after `updateFan`, the four indicator values follow the
code's table: Off lights none; Low lights ind0 and ind1; Medium lights ind0
and ind2; High lights ind0 and ind3; HighBlink lights ind0 and ind3 (blink
base).  The LED pin latches agree with the indicator states. -/
theorem updateFan_indicators_match_code_table :
    ∀ st : FwState, 0 ≤ st.fanState → st.fanState < 5 →
      indicatorQuad (updateFan st) = codeIndicatorRow st.fanState ∧
      (∀ i : Fin 5, (updateFan st).ledPinLevels i = (updateFan st).statusLedStates i) := by
  intro st h0 h5
  refine ⟨?_, fun i => by rw [updateFan_ledPinLevels]⟩
  have h : st.fanState = 0 ∨ st.fanState = 1 ∨ st.fanState = 2 ∨ st.fanState = 3 ∨
      st.fanState = 4 := by omega
  rcases h with h | h | h | h | h <;>
    simp [h, indicatorQuad, indicatorOn, codeIndicatorRow, fanPinStates,
      Function.update_apply] <;> decide

/-- Witness for the amended C1 at the power-on state. -/
theorem updateFan_indicators_match_code_table_witness :
    (0 : Int) ≤ powerOnState.fanState ∧ powerOnState.fanState < 5 ∧
      indicatorQuad (updateFan powerOnState) = codeIndicatorRow powerOnState.fanState :=
  ⟨by decide, by decide,
    (updateFan_indicators_match_code_table powerOnState (by decide) (by decide)).1⟩

/-- The fan-state invariant: the table row index stays inside 0..4. -/
def FanInv (st : FwState) : Prop := 0 ≤ st.fanState ∧ st.fanState < 5

lemma FanInv_buttonPressed (j : Int) (st : FwState) (h : FanInv st) :
    FanInv (buttonPressed j st) := by
  unfold FanInv at *
  unfold buttonPressed
  split
  · simp
  · simp
  · simp
  · simp only [updateFan_fanState]
    split <;> simp
  · simpa [toggleLight] using h
  · exact h

lemma FanInv_buttonScan1 (i : Fin 5) (s : Int) (st : FwState) (h : FanInv st) :
    FanInv (buttonScan1 i s st) := by
  rw [buttonScan1_eq]
  split
  · exact FanInv_buttonPressed _ _ (by simpa [FanInv] using h)
  · simpa [FanInv] using h

lemma FanInv_espScan (s : Int) (st : FwState) (h : FanInv st) : FanInv (espScan s st) := by
  unfold FanInv at *
  simp only [espScan]
  split
  · simpa [toggleLight] using h
  · simpa using h

lemma blinkStep_fanState (st : FwState) : (blinkStep st).fanState = st.fanState := by
  simp only [blinkStep]
  split
  · split <;> rfl
  · rfl

lemma FanInv_blinkStep (st : FwState) (h : FanInv st) : FanInv (blinkStep st) := by
  unfold FanInv at *
  rw [blinkStep_fanState]
  exact h

lemma FanInv_loop60 (samples : Fin 5 → Int) (esp : Int) (st : FwState) (h : FanInv st) :
    FanInv (loop60 samples esp st) :=
  FanInv_blinkStep _ (FanInv_espScan _ _ (FanInv_buttonScan1 4 _ _
    (FanInv_buttonScan1 3 _ _ (FanInv_buttonScan1 2 _ _ (FanInv_buttonScan1 1 _ _
      (FanInv_buttonScan1 0 _ _ h))))))

/-- C10: the fan state starts at 0 after `setup` and stays in {0,1,2,3,4}
under every tick with arbitrary inputs, so every `fanPinStates[fanState]`
row lookup performed by `updateFan` is within the 5-row table. -/
theorem fanState_always_in_range :
    setup.fanState = 0 ∧
    ∀ (samples : Nat → Fin 5 → Int) (esps : Nat → Int) (n : Nat),
      0 ≤ (run samples esps setup n).fanState ∧
      (run samples esps setup n).fanState < 5 ∧
      (fanPinStatesChecked (run samples esps setup n).fanState).isSome = true := by
  refine ⟨rfl, ?_⟩
  intro samples esps n
  have h : FanInv (run samples esps setup n) := by
    induction n with
    | zero =>
      show FanInv setup
      exact ⟨by decide, by decide⟩
    | succ n ih => exact FanInv_loop60 _ _ _ ih
  refine ⟨h.1, h.2, ?_⟩
  unfold fanPinStatesChecked
  rw [if_pos (And.intro h.1 h.2)]
  rfl

/-! ## Claim theorems, part 4: blink timing while in HighBlink -/

/-- A tick's button samples are fan-quiet when no channel 0..3 sees a
press-sized drop, so no fan transition can fire (channel 4 and the
companion line may still toggle the light). -/
def fanQuiet (samples : Fin 5 → Int) (st : FwState) : Prop :=
  ∀ i : Fin 5, i.val ≤ 3 → st.bCurrVals i - samples i ≤ 300

instance fanQuietDecidable (samples : Fin 5 → Int) (st : FwState) :
    Decidable (fanQuiet samples st) :=
  inferInstanceAs (Decidable (∀ i : Fin 5, i.val ≤ 3 → st.bCurrVals i - samples i ≤ 300))

lemma readButtonState_bCurrVals_ne (i j : Fin 5) (s : Int) (st : FwState) (h : j ≠ i) :
    (readButtonState i s st).bCurrVals j = st.bCurrVals j := by
  rw [readButtonState_bCurrVals, Function.update_noteq h]

lemma buttonScan1_four_counter (s : Int) (st : FwState) :
    (buttonScan1 4 s st).counter = st.counter := by
  rw [buttonScan1_eq]
  have hv : (((4 : Fin 5).val : ℕ) : ℤ) = 4 := rfl
  rw [hv]
  split <;> simp [buttonPressed, toggleLight]

lemma buttonScan1_four_fanState (s : Int) (st : FwState) :
    (buttonScan1 4 s st).fanState = st.fanState := by
  rw [buttonScan1_eq]
  have hv : (((4 : Fin 5).val : ℕ) : ℤ) = 4 := rfl
  rw [hv]
  split <;> simp [buttonPressed, toggleLight]

lemma buttonScan1_four_ind3 (s : Int) (st : FwState) :
    (buttonScan1 4 s st).statusLedStates 3 = st.statusLedStates 3 := by
  rw [buttonScan1_eq]
  have hv : (((4 : Fin 5).val : ℕ) : ℤ) = 4 := rfl
  rw [hv]
  split <;>
    simp [buttonPressed, toggleLight,
      Function.update_noteq (show (3 : Fin 5) ≠ 4 from by decide)]

lemma espScan_fanState (s : Int) (st : FwState) : (espScan s st).fanState = st.fanState := by
  simp only [espScan]
  split <;> simp [toggleLight]

lemma espScan_counter (s : Int) (st : FwState) : (espScan s st).counter = st.counter := by
  simp only [espScan]
  split <;> simp [toggleLight]

lemma espScan_ind3 (s : Int) (st : FwState) :
    (espScan s st).statusLedStates 3 = st.statusLedStates 3 := by
  simp only [espScan]
  split <;>
    simp [toggleLight, Function.update_noteq (show (3 : Fin 5) ≠ 4 from by decide)]

lemma blinkStep_counter (st : FwState) :
    (blinkStep st).counter = (if st.counter + 1 = 30 then 0 else st.counter + 1) := by
  simp only [blinkStep]
  split
  · split <;> rfl
  · rfl

lemma blinkStep_ind3 (st : FwState) :
    (blinkStep st).statusLedStates 3 =
      (if st.counter + 1 = 30 ∧ st.fanState = 4 then !(st.statusLedStates 3)
       else st.statusLedStates 3) := by
  simp only [blinkStep]
  by_cases h1 : st.counter + 1 = 30
  · rw [if_pos h1]
    by_cases h2 : st.fanState = 4
    · rw [if_pos h2, if_pos (And.intro h1 h2)]
      simp
    · rw [if_neg h2, if_neg (by tauto)]
  · rw [if_neg h1, if_neg (by tauto)]

lemma loop60_quiet_proj (samples : Fin 5 → Int) (esp : Int) (st : FwState)
    (hq : fanQuiet samples st) :
    (loop60 samples esp st).fanState = st.fanState ∧
    (loop60 samples esp st).counter = (if st.counter + 1 = 30 then 0 else st.counter + 1) ∧
    (loop60 samples esp st).statusLedStates 3 =
      (if st.counter + 1 = 30 ∧ st.fanState = 4 then !(st.statusLedStates 3)
       else st.statusLedStates 3) := by
  have q0 := hq 0 (by decide)
  have q1 := hq 1 (by decide)
  have q2 := hq 2 (by decide)
  have q3 := hq 3 (by decide)
  have e0 : buttonScan1 0 (samples 0) st = readButtonState 0 (samples 0) st := by
    rw [buttonScan1_eq, if_neg]
    omega
  have e1 : buttonScan1 1 (samples 1) (readButtonState 0 (samples 0) st) =
      readButtonState 1 (samples 1) (readButtonState 0 (samples 0) st) := by
    rw [buttonScan1_eq, if_neg]
    rw [readButtonState_bCurrVals_ne 0 1 _ _ (by decide)]
    omega
  have e2 : buttonScan1 2 (samples 2)
        (readButtonState 1 (samples 1) (readButtonState 0 (samples 0) st)) =
      readButtonState 2 (samples 2)
        (readButtonState 1 (samples 1) (readButtonState 0 (samples 0) st)) := by
    rw [buttonScan1_eq, if_neg]
    rw [readButtonState_bCurrVals_ne 1 2 _ _ (by decide),
      readButtonState_bCurrVals_ne 0 2 _ _ (by decide)]
    omega
  have e3 : buttonScan1 3 (samples 3) (readButtonState 2 (samples 2)
        (readButtonState 1 (samples 1) (readButtonState 0 (samples 0) st))) =
      readButtonState 3 (samples 3) (readButtonState 2 (samples 2)
        (readButtonState 1 (samples 1) (readButtonState 0 (samples 0) st))) := by
    rw [buttonScan1_eq, if_neg]
    rw [readButtonState_bCurrVals_ne 2 3 _ _ (by decide),
      readButtonState_bCurrVals_ne 1 3 _ _ (by decide),
      readButtonState_bCurrVals_ne 0 3 _ _ (by decide)]
    omega
  have hl : loop60 samples esp st =
      blinkStep (espScan esp (buttonScan1 4 (samples 4)
        (readButtonState 3 (samples 3) (readButtonState 2 (samples 2)
          (readButtonState 1 (samples 1) (readButtonState 0 (samples 0) st)))))) := by
    simp only [loop60]
    rw [e0, e1, e2, e3]
  refine ⟨?_, ?_, ?_⟩
  · rw [hl, blinkStep_fanState, espScan_fanState, buttonScan1_four_fanState]
    rfl
  · rw [hl, blinkStep_counter, espScan_counter, buttonScan1_four_counter]
    rfl
  · rw [hl, blinkStep_ind3, espScan_counter, espScan_fanState, espScan_ind3,
      buttonScan1_four_counter, buttonScan1_four_fanState, buttonScan1_four_ind3]
    rfl

lemma run_quiet (samples : Nat → Fin 5 → Int) (esps : Nat → Int) (st : FwState) (c : Int)
    (hf : st.fanState = 4) (hc : st.counter = c) (hc0 : 0 ≤ c) (hc30 : c < 30)
    (hq : ∀ k, k < 30 → fanQuiet (samples k) (run samples esps st k)) :
    ∀ k, k ≤ 30 →
      (run samples esps st k).fanState = 4 ∧
      (run samples esps st k).counter = (if (c + k : Int) < 30 then c + k else c + k - 30) ∧
      (run samples esps st k).statusLedStates 3 =
        (if (c + k : Int) < 30 then st.statusLedStates 3 else !(st.statusLedStates 3)) := by
  intro k
  induction k with
  | zero =>
    intro _
    have hcond : (c + ((0 : ℕ) : ℤ)) < 30 := by omega
    refine ⟨hf, ?_, ?_⟩
    · show st.counter = _
      rw [if_pos hcond, hc]
      omega
    · show st.statusLedStates 3 = _
      rw [if_pos hcond]
  | succ k ih =>
    intro hk1
    have hk : k ≤ 30 := by omega
    have hklt : k < 30 := by omega
    obtain ⟨pf, pc, p3⟩ := ih hk
    obtain ⟨qf, qc, q3⟩ := loop60_quiet_proj (samples k) (esps k) _ (hq k hklt)
    refine ⟨?_, ?_, ?_⟩
    · show (loop60 (samples k) (esps k) (run samples esps st k)).fanState = 4
      rw [qf, pf]
    · show (loop60 (samples k) (esps k) (run samples esps st k)).counter = _
      rw [qc, pc]
      split_ifs <;> omega
    · show (loop60 (samples k) (esps k) (run samples esps st k)).statusLedStates 3 = _
      rw [q3, pc, pf, p3]
      split_ifs <;> first | rfl | omega

/-- C7: while the fan state stays in HighBlink across 30 fan-quiet ticks
starting at blink-counter value `c`, indicator 3 changes on exactly the tick
where `c + k = 29` (once per 30 ticks) and is stable on every other tick;
and any table re-application (`updateFan`, in particular after the button
presses that leave HighBlink) drives indicator 3 straight back to the
steady table value, with no separate stop-blinking step. -/
theorem highblink_blink_period :
    ∀ (samples : Nat → Fin 5 → Int) (esps : Nat → Int) (st : FwState) (c : Int),
      st.fanState = 4 → st.counter = c → 0 ≤ c → c < 30 →
      (∀ k, k < 30 → fanQuiet (samples k) (run samples esps st k)) →
      (∀ k, k < 30 →
        (((run samples esps st (k + 1)).statusLedStates 3 ≠
            (run samples esps st k).statusLedStates 3) ↔ (c + k : Int) = 29)) ∧
      (∀ st2 : FwState, (updateFan st2).statusLedStates 3 = fanPinStates st2.fanState 6) ∧
      (∀ (st2 : FwState) (j : Int), j = 0 ∨ j = 1 ∨ j = 2 ∨ j = 3 →
        (buttonPressed j st2).statusLedStates 3 =
          fanPinStates (buttonPressed j st2).fanState 6) := by
  intro samples esps st c hf hc hc0 hc30 hq
  refine ⟨?_, ?_, ?_⟩
  · intro k hk
    obtain ⟨_, _, p3⟩ := run_quiet samples esps st c hf hc hc0 hc30 hq k (by omega)
    obtain ⟨_, _, p3s⟩ := run_quiet samples esps st c hf hc hc0 hc30 hq (k + 1) (by omega)
    rw [p3, p3s]
    by_cases h29 : (c + (k : ℤ)) = 29
    · rw [if_neg (by omega), if_pos (by omega)]
      constructor
      · intro _; exact h29
      · intro _
        cases st.statusLedStates 3 <;> simp
    · by_cases hlt : (c + (k : ℤ)) < 30
      · rw [if_pos (by omega), if_pos hlt]
        exact iff_of_false (by simp) h29
      · rw [if_neg (by omega), if_neg hlt]
        exact iff_of_false (by simp) h29
  · intro st2
    simp
  · intro st2 j hj
    rcases hj with h | h | h | h <;> subst h <;> simp [buttonPressed]

def quietSamples : Nat → Fin 5 → Int := fun _ _ => 0

def quietEsps : Nat → Int := fun _ => 0

/-- A HighBlink state used to witness the blink-period theorem. -/
def blinkStart : FwState := { powerOnState with fanState := 4 }

/-- Witness for C7: from `blinkStart` with counter 0 and all-quiet inputs,
indicator 3 does not change on the first tick (`0 + 0` is not `29`). -/
theorem highblink_blink_period_witness :
    ((run quietSamples quietEsps blinkStart (0 + 1)).statusLedStates 3 ≠
        (run quietSamples quietEsps blinkStart 0).statusLedStates 3) ↔
      ((0 : Int) + ((0 : ℕ) : ℤ)) = 29 :=
  (highblink_blink_period quietSamples quietEsps blinkStart 0 rfl rfl (by decide) (by decide)
    (by decide)).1 0 (by decide)

end Afzuigkap
